import Mathlib

/-!
Verification of the registry-monitor prober (`src/monitor.go`) against its
natural-language specification.

The Go program is shallowly embedded: pure string helpers become Lean
functions on `String`; each probe step becomes a function from the results
of its external container-engine calls (supplied as oracle inputs) to an
outcome; the `runMonitor` loop becomes a state machine `runCycle` folded
over a list of per-cycle oracle inputs (`runTrace`).  Durations are
modelled in whole seconds (the program only ever compares and assigns the
constants 30s, 120s and the parsed operator interval, so nanosecond
resolution is irrelevant).  A Go runtime panic (index out of range) and
`os.Exit` are modelled explicitly, since both terminate the process.
-/

namespace RegistryMonitor

/-- Result of a Go computation that may panic at runtime (e.g. an
out-of-range slice index).  A panic aborts the whole process: there is no
`recover` anywhere in `monitor.go`. -/
inductive GoResult (α : Type) where
  | ok : α → GoResult α
  | panicked : GoResult α
  deriving Repr, DecidableEq

/-- Go slice index assignment `xs[i] = v`.  In Go this is only defined for
`i < len(xs)`; otherwise it panics with "index out of range". -/
def sliceIndexAssign (xs : List String) (i : Nat) (v : String) : GoResult (List String) :=
  if i < xs.length then GoResult.ok (xs.set i v) else GoResult.panicked

/-- `stringInSlice` from monitor.go: linear scan for an exact match. -/
def stringInSlice (value : String) : List String → Bool
  | [] => false
  | current :: rest => if current = value then true else stringInSlice value rest

/-- `imagePath` from monitor.go: `strings.Join([]string{repository, "latest"}, ":")`. -/
def stringsJoin : List String → String → String
  | [], _ => ""
  | [x], _ => x
  | x :: xs, sep => x ++ sep ++ stringsJoin xs sep

def imagePath (repository : String) : String :=
  stringsJoin [repository, "latest"] ":"

/-- `fullImageRef` from monitor.go: joins registry / repository /
(optionally baseImage) with `/`, tagging with `:latest` via `imagePath`. -/
def fullImageRef (registry repository baseImage : String) : String :=
  if baseImage ≠ "" then
    stringsJoin [registry, repository, imagePath baseImage] "/"
  else
    stringsJoin [registry, imagePath repository] "/"

/-- An HTTP response as produced by the two handlers: a status code and a
body. -/
structure HttpResponse where
  code : Nat
  body : String
  deriving Repr, DecidableEq

/-- Go's `fmt` verb `%t` for booleans. -/
def goFormatBool (b : Bool) : String := if b then "true" else "false"

/-- `healthHandler` from monitor.go: writes header 503 when `healthy` is
false; otherwise Go's `net/http` sends the default 200 on the first body
write.  The body is `fmt.Fprintf(w, "%t", healthy)`. -/
def healthHandler (healthy : Bool) : HttpResponse :=
  { code := if !healthy then 503 else 200, body := goFormatBool healthy }

/-- `statusHandler` from monitor.go: writes header 400 when `status` is
false; otherwise the default 200.  Body is `%t` of `status`. -/
def statusHandler (status : Bool) : HttpResponse :=
  { code := if !status then 400 else 200, body := goFormatBool status }

/-- One entry of the image history returned by `images.History`. -/
structure HistEntry where
  id : String
  tags : List String
  deriving Repr, DecidableEq

/-- The inner loop of `deleteTopLayer`, iterating over the image history.
On the first entry tagged "latest" the Go code does
`var imagesToRemove []string; imagesToRemove[0] = image.ID`, i.e. assigns
index 0 of a nil (length-0) slice, then would call `images.Remove` and
`break`.  `removeOk` is the oracle for the `images.Remove` call; `healthy`
is the global read by the final `return healthy`. -/
def deleteTopLayerLoop (removeOk healthy : Bool) : List HistEntry → GoResult Bool
  | [] => GoResult.ok healthy
  | image :: rest =>
    if stringInSlice "latest" image.tags then
      match sliceIndexAssign [] 0 image.id with
      | GoResult.panicked => GoResult.panicked
      | GoResult.ok _imagesToRemove =>
        if removeOk then GoResult.ok healthy else GoResult.ok false
    else deleteTopLayerLoop removeOk healthy rest

/-- `deleteTopLayer` from monitor.go.  `history` is the oracle for the
`images.History` call (`none` = the call returned an error, in which case
the function returns `false`). -/
def deleteTopLayer (history : Option (List HistEntry)) (removeOk healthy : Bool) :
    GoResult Bool :=
  match history with
  | none => GoResult.ok false
  | some imageHistory => deleteTopLayerLoop removeOk healthy imageHistory

/-- Outcome of `createTagLayer`: either the whole process exits with the
given code (`os.Exit`), or the function returns a boolean. -/
inductive CtlResult where
  | exitProc : Nat → CtlResult
  | ret : Bool → CtlResult
  deriving Repr, DecidableEq

/-- `createTagLayer` from monitor.go, with one oracle boolean per external
call, in source order: `containers.CreateWithSpec` (failure → `os.Exit(1)`),
`containers.Commit` (failure → `return false`), `containers.Start`
(failure → `os.Exit(1)`), `containers.Kill` with SIGKILL (failure →
`return false`); otherwise `return true`. -/
def createTagLayer (createOk commitOk startOk killOk : Bool) : CtlResult :=
  if createOk = false then CtlResult.exitProc 1
  else if commitOk = false then CtlResult.ret false
  else if startOk = false then CtlResult.exitProc 1
  else if killOk = false then CtlResult.ret false
  else CtlResult.ret true

/-- Lifecycle mode of the monitor goroutine: still looping, returned from
the loop (structural failure), process terminated by `os.Exit`, or process
terminated by a runtime panic. -/
inductive Mode where
  | running : Mode
  | halted : Mode
  | exited : Nat → Mode
  | panicked : Mode
  deriving Repr, DecidableEq

/-- Startup configuration consumed by `runMonitor` (already validated by
`main`): the `base-image` flag (empty = use `base-layer-id`), the
`base-layer-id` flag, and the successfully parsed `run-test-every`
interval in seconds (`userDuration` in the source). -/
structure Config where
  baseImage : String
  baseLayer : String
  userDuration : Nat
  deriving Repr, DecidableEq

/-- Oracle for one cycle: the success/failure of each external
container-engine call the cycle may perform, in source order. -/
structure CycleInput where
  pullTestOk : Bool
  pullBaseOk : Bool
  history : Option (List HistEntry)
  removeOk : Bool
  createOk : Bool
  commitOk : Bool
  startOk : Bool
  killOk : Bool
  pushTestOk : Bool
  deriving Repr, DecidableEq

/-- The mutable state of `runMonitor`: the `firstLoop` local, the global
`healthy` and `status` booleans, the `duration` local (seconds) that
governs the next sleep, counters for the four metric events
(prometheus/CloudWatch success count, failure count, pull-time and
push-time observations), and the goroutine's lifecycle mode. -/
structure MonitorState where
  firstLoop : Bool
  healthy : Bool
  status : Bool
  duration : Nat
  failCount : Nat
  succCount : Nat
  pullObs : Nat
  pushObs : Nat
  mode : Mode
  deriving Repr, DecidableEq

/-- `reportSuccess` from monitor.go: sets the global `status` to true and
increments the success metric (prometheus counter + CloudWatch datum). -/
def reportSuccess (s : MonitorState) : MonitorState :=
  { s with status := true, succCount := s.succCount + 1 }

/-- `reportFailure` from monitor.go: sets the global `status` to false and
increments the failure metric (prometheus counter + CloudWatch datum). -/
def reportFailure (s : MonitorState) : MonitorState :=
  { s with status := false, failCount := s.failCount + 1 }

/-- One iteration of the `for` loop inside `runMonitor.mainLoop`, after
the (skipped-on-first-iteration) sleep.  Mirrors monitor.go lines 569-626:
set `firstLoop = false` and `status = true`; pull the test image (failure:
`duration = 30s`, `reportFailure`, `continue`); record pull time; pull the
base image when `base-image` is set (failure: `healthy = false`, `return`);
`deleteTopLayer` (failure: `healthy = false`, `return`; a panic kills the
process); `createTagLayer` (may `os.Exit(1)`; failure: `healthy = false`,
`return`); push (failure: `duration = 30s`, `reportFailure`, `continue`);
record push time; `duration = userDuration`; `reportSuccess`.
`runCycleAfterBase` is the straight-line tail of the loop body from the
"Deleting top layer" log line onward; `runCycle` is the whole body. -/
def runCycleAfterBase (cfg : Config) (i : CycleInput) (s : MonitorState) : MonitorState :=
  match deleteTopLayer i.history i.removeOk s.healthy with
  | GoResult.panicked => { s with mode := Mode.panicked }
  | GoResult.ok false => { s with healthy := false, mode := Mode.halted }
  | GoResult.ok true =>
    match createTagLayer i.createOk i.commitOk i.startOk i.killOk with
    | CtlResult.exitProc c => { s with mode := Mode.exited c }
    | CtlResult.ret false => { s with healthy := false, mode := Mode.halted }
    | CtlResult.ret true =>
      if i.pushTestOk = false then reportFailure { s with duration := 30 } else
      reportSuccess { s with pushObs := s.pushObs + 1, duration := cfg.userDuration }

/-- The whole loop body: `status = true`; pull test image (failure is the
transient path); record pull time; optional base pull (failure halts with
`healthy = false`); then `runCycleAfterBase`. -/
def runCycle (cfg : Config) (i : CycleInput) (s0 : MonitorState) : MonitorState :=
  let s := { s0 with firstLoop := false, status := true }
  if i.pullTestOk = false then reportFailure { s with duration := 30 } else
  let s := { s with pullObs := s.pullObs + 1 }
  if cfg.baseImage ≠ "" then
    if i.pullBaseOk = false then { s with healthy := false, mode := Mode.halted }
    else runCycleAfterBase cfg i s
  else runCycleAfterBase cfg i s

/-- The state at the top of `runMonitor`, just before `mainLoop` starts:
`firstLoop = true`, the global `healthy` set to `true`, the global
`status` still at its Go zero value `false`, and the `duration` local
initialised to the constant `120 * time.Second`. -/
def monitorInitState : MonitorState :=
  { firstLoop := true, healthy := true, status := false, duration := 120,
    failCount := 0, succCount := 0, pullObs := 0, pushObs := 0, mode := Mode.running }

/-- The monitor loop run over a list of per-cycle oracles.  Once the
goroutine is no longer running (returned, exited or panicked) no further
cycle executes and the state is frozen. -/
def runTrace (cfg : Config) (s : MonitorState) : List CycleInput → MonitorState
  | [] => s
  | i :: rest =>
    if s.mode = Mode.running then runTrace cfg (runCycle cfg i s) rest else s

/-- The cycle reaches the push step: pull succeeds, the base pull succeeds
when configured, `deleteTopLayer` returns true, and `createTagLayer`
returns true (no exit, no structural failure). -/
def reachesPush (cfg : Config) (i : CycleInput) (healthy : Bool) : Prop :=
  i.pullTestOk = true ∧ (cfg.baseImage ≠ "" → i.pullBaseOk = true) ∧
  deleteTopLayer i.history i.removeOk healthy = GoResult.ok true ∧
  createTagLayer i.createOk i.commitOk i.startOk i.killOk = CtlResult.ret true

/-- Every step of the cycle succeeds. -/
def cycleSuccess (cfg : Config) (i : CycleInput) (healthy : Bool) : Prop :=
  reachesPush cfg i healthy ∧ i.pushTestOk = true

instance (cfg : Config) (i : CycleInput) (healthy : Bool) :
    Decidable (reachesPush cfg i healthy) := by
  unfold reachesPush; infer_instance

instance (cfg : Config) (i : CycleInput) (healthy : Bool) :
    Decidable (cycleSuccess cfg i healthy) := by
  unfold cycleSuccess; infer_instance

/-! ### Helper lemmas -/

theorem stringsJoin_pair (a b sep : String) : stringsJoin [a, b] sep = a ++ sep ++ b := rfl

theorem stringsJoin_triple (a b c sep : String) :
    stringsJoin [a, b, c] sep = a ++ sep ++ (b ++ sep ++ c) := rfl

theorem runTrace_not_running (cfg : Config) (s : MonitorState) (l : List CycleInput)
    (h : s.mode ≠ Mode.running) : runTrace cfg s l = s := by
  cases l with
  | nil => rfl
  | cons i rest => simp [runTrace, h]

theorem runTrace_append (cfg : Config) (s : MonitorState) (l₁ l₂ : List CycleInput) :
    runTrace cfg s (l₁ ++ l₂) = runTrace cfg (runTrace cfg s l₁) l₂ := by
  induction l₁ generalizing s with
  | nil => rfl
  | cons i rest ih =>
    by_cases h : s.mode = Mode.running
    · simp [runTrace, h, ih]
    · simp [runTrace, h, runTrace_not_running cfg s l₂ h]

/-- On every path of the loop body that ends in `healthy = false; return`,
the `status = true` assignment from the top of the cycle is still in
force, and conversely `healthy` has just been cleared. -/
theorem runCycle_halted (cfg : Config) (i : CycleInput) (s : MonitorState)
    (hs : s.mode = Mode.running) (h : (runCycle cfg i s).mode = Mode.halted) :
    (runCycle cfg i s).healthy = false ∧ (runCycle cfg i s).status = true := by
  unfold runCycle runCycleAfterBase reportFailure reportSuccess at h ⊢
  dsimp only at h ⊢
  repeat' split at h
  all_goals simp_all

/-- The loop body never sets `healthy` on a path that keeps the goroutine
looping (transient failure or success). -/
theorem runCycle_running_healthy (cfg : Config) (i : CycleInput) (s : MonitorState)
    (hs : s.mode = Mode.running) (h : (runCycle cfg i s).mode = Mode.running) :
    (runCycle cfg i s).healthy = s.healthy := by
  unfold runCycle runCycleAfterBase reportFailure reportSuccess at h ⊢
  dsimp only at h ⊢
  repeat' split at h
  all_goals simp_all

theorem runTrace_healthy_aux (cfg : Config) (l : List CycleInput) (s : MonitorState)
    (hs : s.mode = Mode.running → s.healthy = true) :
    (runTrace cfg s l).mode = Mode.running → (runTrace cfg s l).healthy = true := by
  induction l generalizing s with
  | nil => exact hs
  | cons i rest ih =>
    by_cases h : s.mode = Mode.running
    · simp only [runTrace, h, if_pos rfl]
      refine ih (runCycle cfg i s) (fun hr => ?_)
      rw [runCycle_running_healthy cfg i s h hr]
      exact hs h
    · simp only [runTrace, if_neg h]
      exact hs

/-- Invariant: while the monitor goroutine is still looping, the global
`healthy` is `true` (it is set at `runMonitor` entry and every assignment
of `false` is immediately followed by `return`). -/
theorem runTrace_healthy_invariant (cfg : Config) (l : List CycleInput) :
    (runTrace cfg monitorInitState l).mode = Mode.running →
    (runTrace cfg monitorInitState l).healthy = true :=
  runTrace_healthy_aux cfg l monitorInitState (fun _ => rfl)

/-! ### Claim theorems -/

/-- Claim C1 (code-bug evaluation): the claim says the DeleteTopLayer step
builds a well-defined one-element list of image IDs and removes the image
without a runtime error.  The code instead declares a nil slice and
assigns its index 0, so on every run in which the history call succeeds
and an entry is tagged "latest" (here: the first entry), the step panics
before any remove call, regardless of whether the remove would succeed. -/
theorem claim1_deleteTopLayer_panics (entry : HistEntry) (rest : List HistEntry)
    (removeOk healthy : Bool) (h : stringInSlice "latest" entry.tags = true) :
    deleteTopLayer (some (entry :: rest)) removeOk healthy = GoResult.panicked := by
  simp [deleteTopLayer, deleteTopLayerLoop, h, sliceIndexAssign]

/-- Concrete run of Claim C1's failing input: history succeeds with one
entry tagged "latest"; the step panics. -/
theorem claim1_deleteTopLayer_panics_witness :
    stringInSlice "latest" ["latest"] = true ∧
    deleteTopLayer (some [{ id := "sha256:abc", tags := ["latest"] }]) true true
      = GoResult.panicked :=
  ⟨by decide,
   claim1_deleteTopLayer_panics { id := "sha256:abc", tags := ["latest"] } [] true true
     (by decide)⟩

/-- Claim C5, as stated, is false: the initial interval is the hard-coded
`120 * time.Second`, so for the configured run-test-every value "5m"
(300 seconds) the initial interval differs from the configured one. -/
theorem claim5_counterexample :
    monitorInitState.duration ≠
      ({ baseImage := "", baseLayer := "deadbeef", userDuration := 300 } : Config).userDuration := by
  decide

/-- Claim C5 (amended): at orchestrator start, before any cycle outcome,
the interval state's current value is the hard-coded constant 120 seconds
(2 minutes), independent of the configured run-test-every value; it
coincides with the configured interval only when that interval is 2
minutes. -/
theorem claim5_initial_interval : monitorInitState.duration = 120 := rfl

/-- Claim C6: `imagePath` appends ":latest"; `fullImageRef` with an empty
base image yields `host/repo:latest`, and with a non-empty base image
`host/repo/base:latest`; both are pure string compositions. -/
theorem claim6_image_refs (repo host b : String) (hb : b ≠ "") :
    imagePath repo = repo ++ ":latest" ∧
    fullImageRef host repo "" = host ++ "/" ++ repo ++ ":latest" ∧
    fullImageRef host repo b = host ++ "/" ++ repo ++ "/" ++ b ++ ":latest" := by
  have hcolon : (":" : String) ++ "latest" = ":latest" := rfl
  refine ⟨?_, ?_, ?_⟩ <;>
    simp [imagePath, fullImageRef, stringsJoin, hb, String.append_assoc, hcolon]

/-- Concrete instance of Claim C6 at `repo = "r"`, `host = "h"`,
`b = "b"`. -/
theorem claim6_image_refs_witness :
    ("b" : String) ≠ "" ∧
    (imagePath "r" = "r" ++ ":latest" ∧
     fullImageRef "h" "r" "" = "h" ++ "/" ++ "r" ++ ":latest" ∧
     fullImageRef "h" "r" "b" = "h" ++ "/" ++ "r" ++ "/" ++ "b" ++ ":latest") :=
  ⟨by decide, claim6_image_refs "r" "h" "b" (by decide)⟩

/-- Claim C7: `/health` answers 200/"true" when healthy and 503/"false"
when not; `/status` answers 200/"true" when status holds and 400/"false"
when not. -/
theorem claim7_handlers :
    healthHandler true = { code := 200, body := "true" } ∧
    healthHandler false = { code := 503, body := "false" } ∧
    statusHandler true = { code := 200, body := "true" } ∧
    statusHandler false = { code := 400, body := "false" } := by
  decide

/-- Claim C9: in `createTagLayer`, a container-start failure exits the
process with code 1, exactly like a container-creation failure; commit
and kill failures instead return false (a structural failure for the
cycle). -/
theorem claim9_start_failure_exits :
    (∀ killOk : Bool, createTagLayer true true false killOk = CtlResult.exitProc 1) ∧
    (∀ commitOk startOk killOk : Bool,
      createTagLayer false commitOk startOk killOk = CtlResult.exitProc 1) ∧
    (∀ startOk killOk : Bool,
      createTagLayer true false startOk killOk = CtlResult.ret false) ∧
    createTagLayer true true true false = CtlResult.ret false := by
  decide

/-- Claim C2: in every trace, once a cycle ends in a structural failure
(the loop body returns, mode `halted`), `healthy` is false and the state
is frozen for every continuation of the trace: no further cycle executes
and nothing ever sets `healthy` back to true. -/
theorem claim2_structural_failure_is_permanent (cfg : Config)
    (pre post : List CycleInput) (i : CycleInput) (s : MonitorState)
    (hs : s = runTrace cfg monitorInitState pre) (hrun : s.mode = Mode.running)
    (hhalt : (runCycle cfg i s).mode = Mode.halted) :
    (runTrace cfg monitorInitState (pre ++ i :: post)).healthy = false ∧
    (runTrace cfg monitorInitState (pre ++ i :: post)).mode = Mode.halted ∧
    runTrace cfg monitorInitState (pre ++ i :: post) = runCycle cfg i s := by
  subst hs
  have h1 : runTrace cfg monitorInitState (pre ++ i :: post)
      = runCycle cfg i (runTrace cfg monitorInitState pre) := by
    rw [runTrace_append]
    rw [show runTrace cfg (runTrace cfg monitorInitState pre) (i :: post)
        = runTrace cfg (runCycle cfg i (runTrace cfg monitorInitState pre)) post from by
      simp [runTrace, hrun]]
    exact runTrace_not_running cfg _ post (by simp [hhalt])
  rw [h1]
  exact ⟨(runCycle_halted cfg i _ hrun hhalt).1, hhalt, rfl⟩

/-- Concrete instance of Claim C2: the first cycle's image-history call
fails (a delete-layer structural failure); one further oracle input is
offered but no further cycle runs and `healthy` stays false. -/
theorem claim2_structural_failure_is_permanent_witness :
    (monitorInitState = runTrace { baseImage := "", baseLayer := "deadbeef", userDuration := 120 }
        monitorInitState [] ∧
     monitorInitState.mode = Mode.running ∧
     (runCycle { baseImage := "", baseLayer := "deadbeef", userDuration := 120 }
        { pullTestOk := true, pullBaseOk := true, history := none, removeOk := true,
          createOk := true, commitOk := true, startOk := true, killOk := true,
          pushTestOk := true } monitorInitState).mode = Mode.halted) ∧
    ((runTrace { baseImage := "", baseLayer := "deadbeef", userDuration := 120 }
        monitorInitState ([] ++
          { pullTestOk := true, pullBaseOk := true, history := none, removeOk := true,
            createOk := true, commitOk := true, startOk := true, killOk := true,
            pushTestOk := true } ::
          [{ pullTestOk := true, pullBaseOk := true, history := none, removeOk := true,
             createOk := true, commitOk := true, startOk := true, killOk := true,
             pushTestOk := true }])).healthy = false ∧
     (runTrace { baseImage := "", baseLayer := "deadbeef", userDuration := 120 }
        monitorInitState ([] ++
          { pullTestOk := true, pullBaseOk := true, history := none, removeOk := true,
            createOk := true, commitOk := true, startOk := true, killOk := true,
            pushTestOk := true } ::
          [{ pullTestOk := true, pullBaseOk := true, history := none, removeOk := true,
             createOk := true, commitOk := true, startOk := true, killOk := true,
             pushTestOk := true }])).mode = Mode.halted ∧
     runTrace { baseImage := "", baseLayer := "deadbeef", userDuration := 120 }
        monitorInitState ([] ++
          { pullTestOk := true, pullBaseOk := true, history := none, removeOk := true,
            createOk := true, commitOk := true, startOk := true, killOk := true,
            pushTestOk := true } ::
          [{ pullTestOk := true, pullBaseOk := true, history := none, removeOk := true,
             createOk := true, commitOk := true, startOk := true, killOk := true,
             pushTestOk := true }]) =
       runCycle { baseImage := "", baseLayer := "deadbeef", userDuration := 120 }
         { pullTestOk := true, pullBaseOk := true, history := none, removeOk := true,
           createOk := true, commitOk := true, startOk := true, killOk := true,
           pushTestOk := true } monitorInitState) :=
  ⟨⟨rfl, rfl, by decide⟩,
   claim2_structural_failure_is_permanent _ [] _ _ monitorInitState rfl rfl (by decide)⟩

/-- Claim C3: a cycle whose pull-test fails, or that reaches the push step
and whose push-test fails, ends with interval 30 s, status false, healthy
unchanged, the failure metric incremented once, the success metric
untouched, no push-time observation (and, for a pull failure, no pull-time
observation either), and the loop still running (it goes to the sleep at
the top of the next iteration, skipping the remaining steps). -/
theorem claim3_transient_failure (cfg : Config) (i : CycleInput) (s s' : MonitorState)
    (hrun : s.mode = Mode.running)
    (h : i.pullTestOk = false ∨ (reachesPush cfg i s.healthy ∧ i.pushTestOk = false))
    (hs' : s' = runCycle cfg i s) :
    s'.duration = 30 ∧ s'.status = false ∧ s'.healthy = s.healthy ∧
    s'.failCount = s.failCount + 1 ∧ s'.succCount = s.succCount ∧
    s'.pushObs = s.pushObs ∧ (i.pullTestOk = false → s'.pullObs = s.pullObs) ∧
    s'.mode = Mode.running := by
  subst hs'
  rcases h with hpull | ⟨⟨hp, hb, hdel, hctl⟩, hpush⟩
  · simp [runCycle, reportFailure, hpull, hrun]
  · by_cases hbase : cfg.baseImage = ""
    · simp [runCycle, runCycleAfterBase, reportFailure, hp, hpush, hbase, hdel, hctl, hrun]
    · have hpb := hb hbase
      simp [runCycle, runCycleAfterBase, reportFailure, hp, hpush, hbase, hpb, hdel, hctl,
        hrun]

/-- Concrete instance of Claim C3: a failed pull-test from the initial
state. -/
theorem claim3_transient_failure_witness :
    (monitorInitState.mode = Mode.running ∧
     ({ pullTestOk := false, pullBaseOk := true, history := some [], removeOk := true,
        createOk := true, commitOk := true, startOk := true, killOk := true,
        pushTestOk := true } : CycleInput).pullTestOk = false) ∧
    ((runCycle { baseImage := "", baseLayer := "deadbeef", userDuration := 120 }
        { pullTestOk := false, pullBaseOk := true, history := some [], removeOk := true,
          createOk := true, commitOk := true, startOk := true, killOk := true,
          pushTestOk := true } monitorInitState).duration = 30 ∧
     (runCycle { baseImage := "", baseLayer := "deadbeef", userDuration := 120 }
        { pullTestOk := false, pullBaseOk := true, history := some [], removeOk := true,
          createOk := true, commitOk := true, startOk := true, killOk := true,
          pushTestOk := true } monitorInitState).status = false) :=
  ⟨⟨rfl, rfl⟩, by
    have h := claim3_transient_failure
      { baseImage := "", baseLayer := "deadbeef", userDuration := 120 }
      { pullTestOk := false, pullBaseOk := true, history := some [], removeOk := true,
        createOk := true, commitOk := true, startOk := true, killOk := true,
        pushTestOk := true }
      monitorInitState _ rfl (Or.inl rfl) rfl
    exact ⟨h.1, h.2.1⟩⟩

/-- Claim C4: a cycle in which every step succeeds ends with the interval
restored to the configured value, status true, healthy true, the success
metric incremented once, and both the pull-time and push-time metrics
observed; the loop keeps running. -/
theorem claim4_success (cfg : Config) (inputs : List CycleInput) (i : CycleInput)
    (s s' : MonitorState) (hs : s = runTrace cfg monitorInitState inputs)
    (hrun : s.mode = Mode.running) (h : cycleSuccess cfg i s.healthy)
    (hs' : s' = runCycle cfg i s) :
    s'.duration = cfg.userDuration ∧ s'.status = true ∧ s'.healthy = true ∧
    s'.succCount = s.succCount + 1 ∧ s'.pushObs = s.pushObs + 1 ∧
    s'.pullObs = s.pullObs + 1 ∧ s'.failCount = s.failCount ∧
    s'.mode = Mode.running := by
  have hhealthy : s.healthy = true := by
    rw [hs] at hrun ⊢
    exact runTrace_healthy_invariant cfg inputs hrun
  subst hs'
  rcases h with ⟨⟨hp, hb, hdel, hctl⟩, hpush⟩
  rw [hhealthy] at hdel
  by_cases hbase : cfg.baseImage = ""
  · simp [runCycle, runCycleAfterBase, reportSuccess, hp, hpush, hbase, hdel, hctl, hrun,
      hhealthy]
  · have hpb := hb hbase
    simp [runCycle, runCycleAfterBase, reportSuccess, hp, hpush, hbase, hpb, hdel, hctl,
      hrun, hhealthy]

/-- Concrete instance of Claim C4: a fully successful first cycle (the
history has no "latest"-tagged entry, so delete-top-layer is a no-op). -/
theorem claim4_success_witness :
    (monitorInitState = runTrace { baseImage := "", baseLayer := "deadbeef", userDuration := 300 }
        monitorInitState [] ∧
     monitorInitState.mode = Mode.running ∧
     cycleSuccess { baseImage := "", baseLayer := "deadbeef", userDuration := 300 }
       { pullTestOk := true, pullBaseOk := true,
         history := some [{ id := "sha256:top", tags := ["v1"] }], removeOk := true,
         createOk := true, commitOk := true, startOk := true, killOk := true,
         pushTestOk := true } monitorInitState.healthy) ∧
    ((runCycle { baseImage := "", baseLayer := "deadbeef", userDuration := 300 }
        { pullTestOk := true, pullBaseOk := true,
          history := some [{ id := "sha256:top", tags := ["v1"] }], removeOk := true,
          createOk := true, commitOk := true, startOk := true, killOk := true,
          pushTestOk := true } monitorInitState).duration = 300 ∧
     (runCycle { baseImage := "", baseLayer := "deadbeef", userDuration := 300 }
        { pullTestOk := true, pullBaseOk := true,
          history := some [{ id := "sha256:top", tags := ["v1"] }], removeOk := true,
          createOk := true, commitOk := true, startOk := true, killOk := true,
          pushTestOk := true } monitorInitState).status = true ∧
     (runCycle { baseImage := "", baseLayer := "deadbeef", userDuration := 300 }
        { pullTestOk := true, pullBaseOk := true,
          history := some [{ id := "sha256:top", tags := ["v1"] }], removeOk := true,
          createOk := true, commitOk := true, startOk := true, killOk := true,
          pushTestOk := true } monitorInitState).healthy = true) :=
  ⟨⟨rfl, rfl, by decide⟩, by
    have h := claim4_success
      { baseImage := "", baseLayer := "deadbeef", userDuration := 300 } []
      { pullTestOk := true, pullBaseOk := true,
        history := some [{ id := "sha256:top", tags := ["v1"] }], removeOk := true,
        createOk := true, commitOk := true, startOk := true, killOk := true,
        pushTestOk := true }
      monitorInitState _ rfl rfl (by decide) rfl
    exact ⟨h.1, h.2.1, h.2.2.1⟩⟩

/-- Claim C10: when a cycle halts on a structural failure, the `status`
flag keeps the value true assigned at the top of that cycle and is never
changed afterwards, so for the rest of the trace `/status` answers
200/"true" while `/health` answers 503/"false". -/
theorem claim10_halted_status_stays_true (cfg : Config) (pre post : List CycleInput)
    (i : CycleInput) (s : MonitorState) (hs : s = runTrace cfg monitorInitState pre)
    (hrun : s.mode = Mode.running) (hhalt : (runCycle cfg i s).mode = Mode.halted)
    (f : MonitorState) (hf : f = runTrace cfg monitorInitState (pre ++ i :: post)) :
    f.status = true ∧ f.healthy = false ∧
    statusHandler f.status = { code := 200, body := "true" } ∧
    healthHandler f.healthy = { code := 503, body := "false" } := by
  subst hs
  have h1 : f = runCycle cfg i (runTrace cfg monitorInitState pre) := by
    rw [hf, runTrace_append]
    rw [show runTrace cfg (runTrace cfg monitorInitState pre) (i :: post)
        = runTrace cfg (runCycle cfg i (runTrace cfg monitorInitState pre)) post from by
      simp [runTrace, hrun]]
    exact runTrace_not_running cfg _ post (by simp [hhalt])
  obtain ⟨hh, hst⟩ := runCycle_halted cfg i _ hrun hhalt
  rw [h1, hst, hh]
  exact ⟨rfl, rfl, rfl, rfl⟩

/-- Concrete instance of Claim C10: the first cycle halts on a failed
image-history call; afterwards `/status` still answers 200/"true" and
`/health` answers 503/"false". -/
theorem claim10_halted_status_stays_true_witness :
    (monitorInitState = runTrace { baseImage := "", baseLayer := "deadbeef", userDuration := 120 }
        monitorInitState [] ∧
     monitorInitState.mode = Mode.running ∧
     (runCycle { baseImage := "", baseLayer := "deadbeef", userDuration := 120 }
        { pullTestOk := true, pullBaseOk := true, history := none, removeOk := false,
          createOk := true, commitOk := true, startOk := true, killOk := true,
          pushTestOk := true } monitorInitState).mode = Mode.halted) ∧
    ((runTrace { baseImage := "", baseLayer := "deadbeef", userDuration := 120 }
        monitorInitState ([] ++
          { pullTestOk := true, pullBaseOk := true, history := none, removeOk := false,
            createOk := true, commitOk := true, startOk := true, killOk := true,
            pushTestOk := true } :: [])).status = true ∧
     (runTrace { baseImage := "", baseLayer := "deadbeef", userDuration := 120 }
        monitorInitState ([] ++
          { pullTestOk := true, pullBaseOk := true, history := none, removeOk := false,
            createOk := true, commitOk := true, startOk := true, killOk := true,
            pushTestOk := true } :: [])).healthy = false) :=
  ⟨⟨rfl, rfl, by decide⟩, by
    have h := claim10_halted_status_stays_true
      { baseImage := "", baseLayer := "deadbeef", userDuration := 120 } [] []
      { pullTestOk := true, pullBaseOk := true, history := none, removeOk := false,
        createOk := true, commitOk := true, startOk := true, killOk := true,
        pushTestOk := true }
      monitorInitState rfl rfl (by decide) _ rfl
    exact ⟨h.1, h.2.1⟩⟩

end RegistryMonitor
